import Mathlib

/-!
Shallow embedding of the IS20 token canister (F3kilo/IS20).

Source files embedded:
- `src/token/api/src/storage/structures.rs` (StableCell, StableBTreeMap),
- `src/token/src/canister.rs` (the TokenCanister query/update methods),
- `src/common/src/types.rs` (Metadata).

The `ledger`, `state` and `types` modules of the token crate are not part of
the available sources; the definitions taken from them are modelled from the
specification and carry a doc comment starting with `Modelled from the spec:`.

Modelling conventions: `Principal` is an opaque identity, embedded as `Nat`;
`candid::Nat` amounts are Lean `Nat`; the ambient `ic_kit::ic::caller()` and
`ic::id()` become explicit arguments; a Rust panic or `ic_kit::ic::trap` is the
`CallResult.trap` constructor, which carries no post-state (an aborted call is
rolled back), while a normal return is `CallResult.reply` with the post-state.
-/

namespace IS20

/-- Opaque account / canister identity (`candid::Principal`). -/
abbrev Principal := Nat

/-! ### storage/structures.rs -/

/-- Association-list lookup by principal, embedding `HashMap::get`. -/
def lookupP {T : Type} (p : Principal) : List (Principal × T) → Option T
  | [] => none
  | (q, v) :: rest => if q = p then some v else lookupP p rest

/-- Association-list update-or-insert by principal, embedding the
`HashMap::entry` occupied/vacant pattern: an existing entry is overwritten in
place, a missing entry is created. -/
def setP {T : Type} (p : Principal) (v : T) : List (Principal × T) → List (Principal × T)
  | [] => [(p, v)]
  | (q, w) :: rest => if q = p then (q, v) :: rest else (q, w) :: setP p v rest

/-- `StableCell<T>`: a per-owner single-value cell. The `data` association
list embeds the `HashMap<Principal, cell::Cell<T, Memory>>`; `memory_id` is the
backing-region identifier, kept for fidelity but never consulted by the
logical operations. -/
structure StableCell (T : Type) where
  data : List (Principal × T)
  default_value : T
  memory_id : Nat

/-- `StableCell::new(memory_id, default_value)`. -/
def StableCell.new {T : Type} (memory_id : Nat) (default_value : T) : StableCell T :=
  { data := [], default_value := default_value, memory_id := memory_id }

/-- `StableCell::get`: the current canister id's cell value, or the default
when that owner has no backing cell yet. The ambient `ic::id()` is the
explicit `canister_id` argument. -/
def StableCell.get {T : Type} (c : StableCell T) (canister_id : Principal) : T :=
  (lookupP canister_id c.data).getD c.default_value

/-- `StableCell::set`: writes through to the current owner's cell, creating
(and initializing with `value`) the backing cell on first write. -/
def StableCell.set {T : Type} (c : StableCell T) (canister_id : Principal) (value : T) :
    StableCell T :=
  { c with data := setP canister_id value c.data }

/-- Sorted-insert into an association list ordered by key, embedding
`btreemap::BTreeMap::insert` (replace on equal key, keep keys ordered). -/
def innerInsert {K V : Type} [LinearOrder K] (k : K) (v : V) :
    List (K × V) → List (K × V)
  | [] => [(k, v)]
  | (k2, v2) :: rest =>
    if k < k2 then (k, v) :: (k2, v2) :: rest
    else if k = k2 then (k, v) :: rest
    else (k2, v2) :: innerInsert k v rest

/-- Lookup in the inner map, embedding `btreemap::BTreeMap::get`. -/
def innerGet {K V : Type} [DecidableEq K] (k : K) : List (K × V) → Option V
  | [] => none
  | (k2, v2) :: rest => if k2 = k then some v2 else innerGet k rest

/-- Removal from the inner map, embedding `btreemap::BTreeMap::remove`. -/
def innerRemove {K V : Type} [DecidableEq K] (k : K) : List (K × V) → List (K × V)
  | [] => []
  | (k2, v2) :: rest => if k2 = k then rest else (k2, v2) :: innerRemove k rest

/-- `StableBTreeMap<K, V>`: a per-owner keyed map. The outer `data`
association list embeds `HashMap<Principal, btreemap::BTreeMap<Memory, K, V>>`;
each inner list is that owner's map, kept sorted by key as a B-tree iterates. -/
structure StableBTreeMap (K V : Type) where
  data : List (Principal × List (K × V))
  memory_id : Nat
  max_key_size : Nat
  max_value_size : Nat

/-- `StableBTreeMap::new(memory_id, max_key_size, max_value_size)`. -/
def StableBTreeMap.new {K V : Type} (memory_id max_key_size max_value_size : Nat) :
    StableBTreeMap K V :=
  { data := [], memory_id := memory_id, max_key_size := max_key_size,
    max_value_size := max_value_size }

/-- `StableBTreeMap::get`: `self.data.get(&canister_id)` then `m.get(key)`. -/
def StableBTreeMap.get {K V : Type} [DecidableEq K] (m : StableBTreeMap K V)
    (canister_id : Principal) (key : K) : Option V :=
  (lookupP canister_id m.data).bind (innerGet key)

/-- `StableBTreeMap::insert`: `entry(canister_id).or_insert_with(empty)` then
an inner insert that replaces any previous value for the key. -/
def StableBTreeMap.insert {K V : Type} [LinearOrder K] (m : StableBTreeMap K V)
    (canister_id : Principal) (key : K) (value : V) : StableBTreeMap K V :=
  let inner := (lookupP canister_id m.data).getD []
  { m with data := setP canister_id (innerInsert key value inner) m.data }

/-- `StableBTreeMap::remove`: `self.data.get_mut(&canister_id)?` then the
inner remove, returning the removed value (or `none` when the owner has no
backing map) together with the updated map. -/
def StableBTreeMap.remove {K V : Type} [DecidableEq K] (m : StableBTreeMap K V)
    (canister_id : Principal) (key : K) : Option V × StableBTreeMap K V :=
  match lookupP canister_id m.data with
  | none => (none, m)
  | some inner =>
    (innerGet key inner, { m with data := setP canister_id (innerRemove key inner) m.data })

/-- `StableBTreeMap::list`: the owner's entries in iteration order,
`skip(start).take(limit)`; an owner with no backing map yields the empty
page. -/
def StableBTreeMap.list {K V : Type} (m : StableBTreeMap K V)
    (canister_id : Principal) (start limit : Nat) : List (K × V) :=
  (((lookupP canister_id m.data).getD []).drop start).take limit

/-! ### Lemmas about the per-owner association lists -/

theorem lookupP_setP_self {T : Type} (p : Principal) (v : T) (l : List (Principal × T)) :
    lookupP p (setP p v l) = some v := by
  induction l with
  | nil => simp [setP, lookupP]
  | cons hd tl ih =>
    obtain ⟨q, w⟩ := hd
    by_cases h : q = p
    · simp [setP, h, lookupP]
    · simp [setP, h, lookupP, ih]

theorem lookupP_setP_ne {T : Type} (p q : Principal) (h : p ≠ q) (v : T)
    (l : List (Principal × T)) : lookupP q (setP p v l) = lookupP q l := by
  induction l with
  | nil => simp [setP, lookupP, h]
  | cons hd tl ih =>
    obtain ⟨r, w⟩ := hd
    by_cases hr : r = p
    · subst hr
      simp [setP, lookupP, h]
    · simp [setP, hr, lookupP, ih]

theorem innerGet_innerInsert_self {K V : Type} [DecidableEq K] [LinearOrder K] (k : K) (v : V)
    (l : List (K × V)) : innerGet k (innerInsert k v l) = some v := by
  induction l with
  | nil => simp [innerInsert, innerGet]
  | cons hd tl ih =>
    obtain ⟨k2, v2⟩ := hd
    by_cases hlt : k < k2
    · simp [innerInsert, hlt, innerGet]
    · by_cases heq : k = k2
      · simp [innerInsert, hlt, heq, innerGet]
      · have hne : k2 ≠ k := fun h => heq h.symm
        simp [innerInsert, hlt, heq, innerGet, hne, ih]

/-! ### Data model of the token canister -/

/-- Kinds of ledger transaction records (spec §3 `TransactionRecord.kind`). -/
inductive TxKind where
  | Transfer
  | TransferFrom
  | Approve
  | Mint
  | Burn
  | Auction
deriving DecidableEq, Repr

/-- A ledger transaction record (`TxRecord` of the token crate, spec §3).
The Rust field `from` is a Lean keyword and is embedded as `fromAcc`. -/
structure TxRecord where
  id : Nat
  kind : TxKind
  caller : Option Principal
  fromAcc : Principal
  toAcc : Principal
  amount : Nat
  fee : Nat
  timestamp : Nat
  notified : Bool
deriving DecidableEq, Repr

/-- Modelled from the spec: the Ledger is an ordered, append-only sequence of
transaction records indexed by id (spec §3), whose implementation module is
not among the available sources. -/
abbrev Ledger := List TxRecord

/-- Modelled from the spec: `Ledger::get(id) -> Option<record>` looks a record
up by its id, the sole handle for later lookup (spec §4.3). -/
def Ledger.get (l : Ledger) (id : Nat) : Option TxRecord :=
  l.find? (fun tx => tx.id == id)

/-- Modelled from the spec: `Ledger::get_range(start, limit)` returns the
records with id in the interval from `start` (inclusive) to `start + limit`
(exclusive), clipped to existing ids; an out-of-range `start` yields the empty
sequence (spec §4.3). -/
def Ledger.get_range (l : Ledger) (start limit : Nat) : List TxRecord :=
  l.filter (fun tx => start ≤ tx.id && tx.id < start + limit)

/-- Modelled from the spec: `Ledger::len()` is the number of records. -/
def Ledger.len (l : Ledger) : Nat := l.length

/-- Modelled from the spec: `Ledger::mint(from, to, amount)` appends a Mint
record, assigning the next id (ids start at 0 and increase by one per append,
spec §3/§4.3); the record's fee is zero and it starts un-notified. -/
def Ledger.mint (l : Ledger) (fromAcc toAcc : Principal) (amount : Nat) : Ledger :=
  l ++ [{ id := l.length, kind := TxKind.Mint, caller := some fromAcc,
          fromAcc := fromAcc, toAcc := toAcc, amount := amount, fee := 0,
          timestamp := 0, notified := false }]

/-- `Metadata` (src/common/src/types.rs). -/
structure Metadata where
  logo : String
  name : String
  symbol : String
  decimals : Nat
  totalSupply : Nat
  owner : Principal
  fee : Nat
  feeTo : Principal
  isTestToken : Option Bool
deriving DecidableEq, Repr

/-- Modelled from the spec: the canister's `StatsData` (token metadata plus
owner, fee configuration, test-mode flag and the cycle threshold), whose
defining module is not among the available sources; fields follow the
accessors used in canister.rs. -/
structure StatsData where
  logo : String
  name : String
  symbol : String
  decimals : Nat
  total_supply : Nat
  owner : Principal
  fee : Nat
  fee_to : Principal
  is_test_token : Bool
  min_cycles : Nat
deriving DecidableEq, Repr

/-- Modelled from the spec: the `From<Metadata> for StatsData` conversion used
by `init` (`metadata.into()`); an absent `isTestToken` means a regular,
non-test token. -/
def StatsData.ofMetadata (metadata : Metadata) : StatsData :=
  { logo := metadata.logo, name := metadata.name, symbol := metadata.symbol,
    decimals := metadata.decimals, total_supply := metadata.totalSupply,
    owner := metadata.owner, fee := metadata.fee, fee_to := metadata.feeTo,
    is_test_token := metadata.isTestToken.getD false, min_cycles := 0 }

/-- Modelled from the spec: the auction `BiddingState` (spec §3); the
fee-ratio field is floating point in the source and not needed by any claim,
so it is omitted from the embedding. -/
structure BiddingState where
  auction_period : Nat
  last_auction_time : Nat
  bids : List (Principal × Nat)
deriving DecidableEq, Repr

/-- Modelled from the spec: balances are a mapping from holder to amount
(spec §3); embedded as an association list mirroring the map inside
`Balances`, with an absent entry meaning a zero balance. -/
abbrev Balances := List (Principal × Nat)

/-- Modelled from the spec: `balance_of` returns the holder's balance, zero
when the holder has no entry. -/
def Balances.balance_of (b : Balances) (who : Principal) : Nat :=
  (lookupP who b).getD 0

/-- Modelled from the spec: the `CanisterState` aggregating balances, stats,
the ledger and the bidding state (its module is not among the available
sources); only the components the canister methods under verification touch
are embedded. -/
structure CanisterState where
  balances : Balances
  stats : StatsData
  ledger : Ledger
  bidding_state : BiddingState
deriving DecidableEq, Repr

/-- Modelled from the spec: a fresh canister state before `init` runs — empty
balances, empty ledger, zeroed bidding state and blank stats. -/
def CanisterState.fresh : CanisterState :=
  { balances := [],
    stats := { logo := "", name := "", symbol := "", decimals := 0,
               total_supply := 0, owner := 0, fee := 0, fee_to := 0,
               is_test_token := false, min_cycles := 0 },
    ledger := [],
    bidding_state := { auction_period := 0, last_auction_time := 0, bids := [] } }

/-- The typed error results of canister operations (`TxError`); only the
variants exercised by the embedded methods are listed. `Unauthorized` carries
the string renderings of the owner and the caller, as in the source. -/
inductive TxError where
  | Unauthorized (owner : String) (caller : String)
  | AmountTooSmall
  | NotFound
deriving DecidableEq, Repr

/-- Outcome of one inbound canister call: `reply` returns a value together
with the post-call state, while `trap` is a Rust panic or an explicit
`ic_kit::ic::trap` — the call aborts, carrying only the trap message, and the
canister state is rolled back. -/
inductive CallResult (α : Type) where
  | reply (value : α) (state : CanisterState)
  | trap (msg : String)
deriving DecidableEq, Repr

/-- Whether a call outcome is a trap (an abort, as opposed to any reply). -/
def CallResult.isTrap {α : Type} : CallResult α → Bool
  | CallResult.reply _ _ => false
  | CallResult.trap _ => true

/-- The trap message produced by `Result::unwrap()` on an `Err` value. -/
def unwrapErrMsg : String := "called Result::unwrap() on an Err value"

/-! ### canister.rs: constants and the `check_caller` helper -/

/-- The source's `DEFAULT_AUCTION_PERIOD` constant, commented as one day in
nanoseconds, with the literal value `24 * 60 * 60 * 1_000_000`. -/
def DEFAULT_AUCTION_PERIOD : Nat := 24 * 60 * 60 * 1000000

/-- The source's `MAX_TRANSACTION_QUERY_LEN` constant. -/
def MAX_TRANSACTION_QUERY_LEN : Nat := 1000

/-- The modulus of the Rust `u64` arithmetic used for the auction period. -/
def u64Mod : Nat := 2 ^ 64

/-- `check_caller(owner)`: ok when the ambient caller equals the owner,
otherwise the `Unauthorized` typed error carrying both identities rendered as
strings. The ambient `ic_kit::ic::caller()` is the explicit first argument. -/
def check_caller (caller owner : Principal) : Except TxError Unit :=
  if caller = owner then Except.ok ()
  else Except.error (TxError.Unauthorized (toString owner) (toString caller))

namespace TokenCanister

/-- `TokenCanister::init(metadata)`: inserts the owner's balance, appends the
genesis mint to the ledger, installs the stats from the metadata and sets the
default auction period, in source order. -/
def init (metadata : Metadata) (st : CanisterState) : CanisterState :=
  let st1 := { st with balances := setP metadata.owner metadata.totalSupply st.balances }
  let st2 := { st1 with
    ledger := Ledger.mint st1.ledger metadata.owner metadata.owner metadata.totalSupply }
  let st3 := { st2 with stats := StatsData.ofMetadata metadata }
  { st3 with bidding_state := { st3.bidding_state with
      auction_period := DEFAULT_AUCTION_PERIOD } }

/-- `TokenCanister::owner()` query. -/
def owner (st : CanisterState) : Principal := st.stats.owner

/-- `TokenCanister::getTransaction(id)`: the ledger record with that id, or an
explicit `ic_kit::ic::trap` when the lookup comes back empty. -/
def getTransaction (st : CanisterState) (id : Nat) : CallResult TxRecord :=
  match Ledger.get st.ledger id with
  | some tx => CallResult.reply tx st
  | none => CallResult.trap ("Transaction " ++ toString id ++ " does not exist")

/-- The trap message of the transaction-query limit check. -/
def limitTrapMsg : String := "Limit must be less then " ++ toString MAX_TRANSACTION_QUERY_LEN

/-- `TokenCanister::getTransactions(start, limit)`: traps when `limit` exceeds
`MAX_TRANSACTION_QUERY_LEN`, otherwise returns the ledger range. -/
def getTransactions (st : CanisterState) (start limit : Nat) : CallResult (List TxRecord) :=
  if limit > MAX_TRANSACTION_QUERY_LEN then CallResult.trap limitTrapMsg
  else CallResult.reply (Ledger.get_range st.ledger start limit) st

/-- The participant filter of the user-transaction queries:
`tx.from == who || tx.toAcc == who || tx.caller == Some(who)`. -/
def matchesUser (who : Principal) (tx : TxRecord) : Bool :=
  tx.fromAcc == who || tx.toAcc == who || tx.caller == some who

/-- `TokenCanister::getUserTransactions(who, start, limit)`: traps when
`limit` exceeds `MAX_TRANSACTION_QUERY_LEN`, otherwise collects the records of
the ledger range that match `who` as a participant, in ledger order. -/
def getUserTransactions (st : CanisterState) (who : Principal) (start limit : Nat) :
    CallResult (List TxRecord) :=
  if limit > MAX_TRANSACTION_QUERY_LEN then CallResult.trap limitTrapMsg
  else CallResult.reply ((Ledger.get_range st.ledger start limit).filter (matchesUser who)) st

/-- `TokenCanister::getUserTransactionAmount(who)`: iterates the whole ledger
and accumulates `tx.amount` of every record matching `who` as a participant. -/
def getUserTransactionAmount (st : CanisterState) (who : Principal) : Nat :=
  st.ledger.foldl (fun amount tx => if matchesUser who tx then amount + tx.amount else amount) 0

/-- `TokenCanister::toggleTest()`: `check_caller(self.owner()).unwrap()` — a
panic (trap) on an unauthorized caller — then flips and returns the test-mode
flag. -/
def toggleTest (caller : Principal) (st : CanisterState) : CallResult Bool :=
  match check_caller caller (owner st) with
  | Except.error _ => CallResult.trap unwrapErrMsg
  | Except.ok () =>
    let b := !st.stats.is_test_token
    CallResult.reply b { st with stats := { st.stats with is_test_token := b } }

/-- `TokenCanister::setName(name)`: unwrap of the caller check, then the
stats update. -/
def setName (caller : Principal) (st : CanisterState) (name : String) : CallResult Unit :=
  match check_caller caller (owner st) with
  | Except.error _ => CallResult.trap unwrapErrMsg
  | Except.ok () => CallResult.reply () { st with stats := { st.stats with name := name } }

/-- `TokenCanister::setLogo(logo)`: unwrap of the caller check, then the
stats update. -/
def setLogo (caller : Principal) (st : CanisterState) (logo : String) : CallResult Unit :=
  match check_caller caller (owner st) with
  | Except.error _ => CallResult.trap unwrapErrMsg
  | Except.ok () => CallResult.reply () { st with stats := { st.stats with logo := logo } }

/-- `TokenCanister::setFee(fee)`: unwrap of the caller check, then the stats
update. -/
def setFee (caller : Principal) (st : CanisterState) (fee : Nat) : CallResult Unit :=
  match check_caller caller (owner st) with
  | Except.error _ => CallResult.trap unwrapErrMsg
  | Except.ok () => CallResult.reply () { st with stats := { st.stats with fee := fee } }

/-- `TokenCanister::setFeeTo(fee_to)`: unwrap of the caller check, then the
stats update. -/
def setFeeTo (caller : Principal) (st : CanisterState) (fee_to : Principal) : CallResult Unit :=
  match check_caller caller (owner st) with
  | Except.error _ => CallResult.trap unwrapErrMsg
  | Except.ok () => CallResult.reply () { st with stats := { st.stats with fee_to := fee_to } }

/-- `TokenCanister::setOwner(owner)`: unwrap of the caller check, then the
stats update. -/
def setOwner (caller : Principal) (st : CanisterState) (newOwner : Principal) : CallResult Unit :=
  match check_caller caller (owner st) with
  | Except.error _ => CallResult.trap unwrapErrMsg
  | Except.ok () => CallResult.reply () { st with stats := { st.stats with owner := newOwner } }

/-- `TokenCanister::setMinCycles(min_cycles)`: propagates the caller check as
a typed `Result` via `?`, then updates the stats. -/
def setMinCycles (caller : Principal) (st : CanisterState) (min_cycles : Nat) :
    CallResult (Except TxError Unit) :=
  match check_caller caller (owner st) with
  | Except.error e => CallResult.reply (Except.error e) st
  | Except.ok () =>
    CallResult.reply (Except.ok ()) { st with stats := { st.stats with min_cycles := min_cycles } }

/-- `TokenCanister::setAuctionPeriod(period_sec)`: propagates the caller check
as a typed `Result` via `?`, then stores `period_sec * 1_000_000` (a `u64`
multiplication, embedded with its modulus) as the auction period. -/
def setAuctionPeriod (caller : Principal) (st : CanisterState) (period_sec : Nat) :
    CallResult (Except TxError Unit) :=
  match check_caller caller (owner st) with
  | Except.error e => CallResult.reply (Except.error e) st
  | Except.ok () =>
    CallResult.reply (Except.ok ()) { st with bidding_state := { st.bidding_state with
      auction_period := period_sec * 1000000 % u64Mod } }

end TokenCanister

/-! ### Concrete fixtures used by witnesses and counterexamples -/

/-- Example deployment metadata: owner `0` receives a total supply of 5. -/
def exMetadata : Metadata :=
  { logo := "L", name := "Token", symbol := "TKN", decimals := 8,
    totalSupply := 5, owner := 0, fee := 0, feeTo := 0, isTestToken := none }

/-- Canister state right after `init` ran on a fresh state with `exMetadata`. -/
def exState : CanisterState := TokenCanister.init exMetadata CanisterState.fresh

/-- The genesis Mint record `init` appends for `exMetadata`. -/
def exGenesis : TxRecord :=
  { id := 0, kind := TxKind.Mint, caller := some 0, fromAcc := 0, toAcc := 0,
    amount := 5, fee := 0, timestamp := 0, notified := false }

/-- An example single-value cell with default value 7. -/
def exCell : StableCell Nat := StableCell.new 0 7

/-- An example keyed map holding one entry for owner 1. -/
def exMap : StableBTreeMap Nat Nat := (StableBTreeMap.new 1 8 8).insert 1 2 3

/-! ### Claims about the KeyedStore (structures.rs) -/

/-- C5: KeyedStore is read-your-writes — for every owner, a cell `get` right
after `set v` by that owner returns `v`, and a map `get k` right after
`insert k v` by that owner returns `some v`, replacing any previous value. -/
theorem claim_C5_read_your_writes {T K V : Type} [DecidableEq K] [LinearOrder K]
    (c : StableCell T) (m : StableBTreeMap K V) (canister_id : Principal)
    (v : T) (k : K) (w : V) :
    (c.set canister_id v).get canister_id = v ∧
    (m.insert canister_id k w).get canister_id k = some w := by
  constructor
  · simp [StableCell.get, StableCell.set, lookupP_setP_self]
  · simp [StableBTreeMap.get, StableBTreeMap.insert, lookupP_setP_self,
      innerGet_innerInsert_self]

/-- Witness for C5 at concrete inputs. -/
theorem claim_C5_read_your_writes_witness :
    (exCell.set 3 9).get 3 = 9 ∧ (exMap.insert 3 2 11).get 3 2 = some 11 :=
  claim_C5_read_your_writes exCell exMap 3 9 2 11

/-- C6: KeyedStore isolates owners — a `set`, `insert` or `remove` performed
as owner `A` leaves every `get` and `list` observation of a distinct owner `B`
unchanged. -/
theorem claim_C6_owner_isolation {T K V : Type} [DecidableEq K] [LinearOrder K]
    (c : StableCell T) (m : StableBTreeMap K V) (A B : Principal) (h : A ≠ B)
    (v : T) (k k2 : K) (w : V) (start limit : Nat) :
    (c.set A v).get B = c.get B ∧
    (m.insert A k w).get B k2 = m.get B k2 ∧
    ((m.remove A k).2).get B k2 = m.get B k2 ∧
    (m.insert A k w).list B start limit = m.list B start limit ∧
    ((m.remove A k).2).list B start limit = m.list B start limit := by
  refine ⟨?_, ?_, ?_, ?_, ?_⟩
  · simp [StableCell.get, StableCell.set, lookupP_setP_ne A B h]
  · simp [StableBTreeMap.get, StableBTreeMap.insert, lookupP_setP_ne A B h]
  · cases hA : lookupP A m.data with
    | none => simp [StableBTreeMap.remove, hA]
    | some inner => simp [StableBTreeMap.remove, hA, StableBTreeMap.get,
        lookupP_setP_ne A B h]
  · simp [StableBTreeMap.list, StableBTreeMap.insert, lookupP_setP_ne A B h]
  · cases hA : lookupP A m.data with
    | none => simp [StableBTreeMap.remove, hA]
    | some inner => simp [StableBTreeMap.remove, hA, StableBTreeMap.list,
        lookupP_setP_ne A B h]

/-- Witness for C6 at concrete inputs (owners 0 and 1). -/
theorem claim_C6_owner_isolation_witness :
    (exCell.set 0 9).get 1 = exCell.get 1 ∧
    (exMap.insert 0 2 11).get 1 2 = exMap.get 1 2 ∧
    ((exMap.remove 0 2).2).get 1 2 = exMap.get 1 2 ∧
    (exMap.insert 0 2 11).list 1 0 10 = exMap.list 1 0 10 ∧
    ((exMap.remove 0 2).2).list 1 0 10 = exMap.list 1 0 10 :=
  claim_C6_owner_isolation exCell exMap 0 1 (by decide) 9 2 2 11 0 10

/-- C9: an owner that has never written (so has no backing region in the
outer per-owner map) reads the empty result — the cell `get` returns the
configured default value and the map `get` returns `none` for every key. -/
theorem claim_C9_fresh_owner_reads {T K V : Type} [DecidableEq K]
    (c : StableCell T) (m : StableBTreeMap K V) (canister_id : Principal)
    (hc : lookupP canister_id c.data = none) (hm : lookupP canister_id m.data = none) :
    c.get canister_id = c.default_value ∧ ∀ k, m.get canister_id k = none := by
  constructor
  · simp [StableCell.get, hc]
  · intro k
    simp [StableBTreeMap.get, hm]

/-- Witness for C9: owner 5 never wrote to the example cell or to the freshly
created example map. -/
theorem claim_C9_fresh_owner_reads_witness :
    exCell.get 5 = 7 ∧ (StableBTreeMap.new 1 8 8 : StableBTreeMap Nat Nat).get 5 2 = none :=
  ⟨(claim_C9_fresh_owner_reads exCell (StableBTreeMap.new 1 8 8 : StableBTreeMap Nat Nat)
      5 rfl rfl).1,
   (claim_C9_fresh_owner_reads exCell (StableBTreeMap.new 1 8 8 : StableBTreeMap Nat Nat)
      5 rfl rfl).2 2⟩

/-! ### Claims about the canister methods (canister.rs) -/

/-- C1: the user-transaction-count query does not return the number of
matching records — on the post-`init` example state whose single ledger
record (of amount 5) involves holder 0, `getUserTransactionAmount` returns 5,
the sum of the matching amounts, while the number of matching records is 1.
This evaluates the code at the failing input of the code-bug report. -/
theorem claim_C1_sums_amounts_not_count :
    TokenCanister.getUserTransactionAmount exState 0 = 5 ∧
    (exState.ledger.filter (fun tx => TokenCanister.matchesUser 0 tx)).length = 1 ∧
    (5 : Nat) ≠ 1 :=
  ⟨rfl, rfl, by decide⟩

/-- C2 counterexample: the claim that every owner-only mutating operation
returns `Unauthorized` as a typed result and never aborts is false —
`toggleTest` called by principal 1, who is not the owner of the example
state, aborts the call with a trap (the `unwrap` panic) instead of replying. -/
theorem claim_C2_counterexample :
    (1 : Principal) ≠ TokenCanister.owner exState ∧
    TokenCanister.toggleTest 1 exState = CallResult.trap unwrapErrMsg ∧
    (TokenCanister.toggleTest 1 exState).isTrap = true :=
  ⟨by decide, rfl, rfl⟩

/-- C2 (amended): for every state and every caller distinct from the stored
owner, `toggleTest`, `setName`, `setLogo`, `setFee`, `setFeeTo` and
`setOwner` abort the call with a trap (the `unwrap` panic on the failed
caller check), which rolls the call back so no state survives, while
`setMinCycles` and `setAuctionPeriod` return the `Unauthorized` typed error
to the caller with the canister state exactly as before the call. -/
theorem claim_C2_unauthorized_behavior (st : CanisterState) (caller : Principal)
    (h : caller ≠ TokenCanister.owner st) (name logo : String) (fee : Nat)
    (fee_to newOwner : Principal) (min_cycles period_sec : Nat) :
    TokenCanister.toggleTest caller st = CallResult.trap unwrapErrMsg ∧
    TokenCanister.setName caller st name = CallResult.trap unwrapErrMsg ∧
    TokenCanister.setLogo caller st logo = CallResult.trap unwrapErrMsg ∧
    TokenCanister.setFee caller st fee = CallResult.trap unwrapErrMsg ∧
    TokenCanister.setFeeTo caller st fee_to = CallResult.trap unwrapErrMsg ∧
    TokenCanister.setOwner caller st newOwner = CallResult.trap unwrapErrMsg ∧
    TokenCanister.setMinCycles caller st min_cycles = CallResult.reply
      (Except.error (TxError.Unauthorized (toString (TokenCanister.owner st))
        (toString caller))) st ∧
    TokenCanister.setAuctionPeriod caller st period_sec = CallResult.reply
      (Except.error (TxError.Unauthorized (toString (TokenCanister.owner st))
        (toString caller))) st := by
  simp [TokenCanister.toggleTest, TokenCanister.setName, TokenCanister.setLogo,
    TokenCanister.setFee, TokenCanister.setFeeTo, TokenCanister.setOwner,
    TokenCanister.setMinCycles, TokenCanister.setAuctionPeriod, check_caller, h]

/-- Witness for the amended C2 at concrete inputs (caller 1 against the
example state owned by 0). -/
theorem claim_C2_unauthorized_behavior_witness :
    TokenCanister.toggleTest 1 exState = CallResult.trap unwrapErrMsg ∧
    TokenCanister.setName 1 exState "n" = CallResult.trap unwrapErrMsg ∧
    TokenCanister.setLogo 1 exState "l" = CallResult.trap unwrapErrMsg ∧
    TokenCanister.setFee 1 exState 7 = CallResult.trap unwrapErrMsg ∧
    TokenCanister.setFeeTo 1 exState 2 = CallResult.trap unwrapErrMsg ∧
    TokenCanister.setOwner 1 exState 3 = CallResult.trap unwrapErrMsg ∧
    TokenCanister.setMinCycles 1 exState 4 = CallResult.reply
      (Except.error (TxError.Unauthorized (toString (TokenCanister.owner exState))
        (toString (1 : Principal)))) exState ∧
    TokenCanister.setAuctionPeriod 1 exState 5 = CallResult.reply
      (Except.error (TxError.Unauthorized (toString (TokenCanister.owner exState))
        (toString (1 : Principal)))) exState :=
  claim_C2_unauthorized_behavior exState 1 (by decide) "n" "l" 7 2 3 4 5

/-- C3: `getTransaction` replies with the ledger record carrying the queried
id whenever the lookup finds one — and the lookup comes back empty exactly
when no record with that id exists — while an empty lookup makes the call
trap with the fatal does-not-exist message rather than reply with a soft
error. -/
theorem claim_C3_getTransaction_trap_on_missing (st : CanisterState) (id : Nat) :
    (Ledger.get st.ledger id = none ↔ ∀ tx ∈ st.ledger, tx.id ≠ id) ∧
    (∀ tx, Ledger.get st.ledger id = some tx →
      tx ∈ st.ledger ∧ tx.id = id ∧
        TokenCanister.getTransaction st id = CallResult.reply tx st) ∧
    (Ledger.get st.ledger id = none →
      TokenCanister.getTransaction st id =
        CallResult.trap ("Transaction " ++ toString id ++ " does not exist")) := by
  refine ⟨?_, ?_, ?_⟩
  · rw [Ledger.get, List.find?_eq_none]
    constructor
    · intro hnone tx hmem
      simpa using hnone tx hmem
    · intro hall tx hmem
      simpa using hall tx hmem
  · intro tx hfind
    refine ⟨List.mem_of_find?_eq_some hfind, ?_, ?_⟩
    · have := List.find?_some hfind
      simpa using this
    · simp [TokenCanister.getTransaction, hfind]
  · intro hnone
    simp [TokenCanister.getTransaction, hnone]

/-- Witness for C3: on the example state, id 0 exists and is replied, id 7
does not exist and the call traps. -/
theorem claim_C3_getTransaction_trap_on_missing_witness :
    (exGenesis ∈ exState.ledger ∧ exGenesis.id = 0 ∧
      TokenCanister.getTransaction exState 0 = CallResult.reply exGenesis exState) ∧
    TokenCanister.getTransaction exState 7 =
      CallResult.trap ("Transaction " ++ toString (7 : Nat) ++ " does not exist") :=
  ⟨(claim_C3_getTransaction_trap_on_missing exState 0).2.1 exGenesis (by decide),
   (claim_C3_getTransaction_trap_on_missing exState 7).2.2 (by decide)⟩

/-- C4: after `init` on a fresh state, the owner's balance equals the total
supply, the head of the ledger is the genesis Mint record (id 0, kind Mint,
minted to the owner with the total supply) and the auction period holds the
default value. -/
theorem claim_C4_init_genesis (metadata : Metadata) :
    Balances.balance_of (TokenCanister.init metadata CanisterState.fresh).balances
        metadata.owner = metadata.totalSupply ∧
    (TokenCanister.init metadata CanisterState.fresh).ledger.head? = some
      { id := 0, kind := TxKind.Mint, caller := some metadata.owner,
        fromAcc := metadata.owner, toAcc := metadata.owner,
        amount := metadata.totalSupply, fee := 0, timestamp := 0, notified := false } ∧
    (TokenCanister.init metadata CanisterState.fresh).bidding_state.auction_period
        = DEFAULT_AUCTION_PERIOD := by
  refine ⟨?_, rfl, rfl⟩
  simp [TokenCanister.init, CanisterState.fresh, Balances.balance_of, setP, lookupP]

/-- Witness for C4 at the example metadata. -/
theorem claim_C4_init_genesis_witness :
    Balances.balance_of (TokenCanister.init exMetadata CanisterState.fresh).balances
        exMetadata.owner = exMetadata.totalSupply ∧
    (TokenCanister.init exMetadata CanisterState.fresh).ledger.head? = some
      { id := 0, kind := TxKind.Mint, caller := some exMetadata.owner,
        fromAcc := exMetadata.owner, toAcc := exMetadata.owner,
        amount := exMetadata.totalSupply, fee := 0, timestamp := 0, notified := false } ∧
    (TokenCanister.init exMetadata CanisterState.fresh).bidding_state.auction_period
        = DEFAULT_AUCTION_PERIOD :=
  claim_C4_init_genesis exMetadata

/-- C7: `getTransactions` enforces the fixed query cap of 1000 — any limit
strictly above the cap traps without returning records, and any limit up to
the cap replies with exactly the ledger records whose id lies in the interval
from `start` to `start + limit` (exclusive). -/
theorem claim_C7_getTransactions_cap (st : CanisterState) (start limit : Nat) :
    (limit > MAX_TRANSACTION_QUERY_LEN →
      TokenCanister.getTransactions st start limit =
        CallResult.trap TokenCanister.limitTrapMsg) ∧
    (limit ≤ MAX_TRANSACTION_QUERY_LEN →
      TokenCanister.getTransactions st start limit =
        CallResult.reply (Ledger.get_range st.ledger start limit) st ∧
      ∀ tx, tx ∈ Ledger.get_range st.ledger start limit ↔
        tx ∈ st.ledger ∧ start ≤ tx.id ∧ tx.id < start + limit) := by
  constructor
  · intro hgt
    simp [TokenCanister.getTransactions, hgt]
  · intro hle
    constructor
    · simp [TokenCanister.getTransactions, Nat.not_lt.mpr hle]
    · intro tx
      simp [Ledger.get_range, List.mem_filter]

/-- Witness for C7: on the example state, limit 1001 traps and limit 2
replies with the range; the genesis record is characterized as in range. -/
theorem claim_C7_getTransactions_cap_witness :
    TokenCanister.getTransactions exState 0 1001 =
      CallResult.trap TokenCanister.limitTrapMsg ∧
    TokenCanister.getTransactions exState 0 2 =
      CallResult.reply (Ledger.get_range exState.ledger 0 2) exState ∧
    (exGenesis ∈ Ledger.get_range exState.ledger 0 2 ↔
      exGenesis ∈ exState.ledger ∧ 0 ≤ exGenesis.id ∧ exGenesis.id < 0 + 2) :=
  ⟨(claim_C7_getTransactions_cap exState 0 1001).1 (by decide),
   ((claim_C7_getTransactions_cap exState 0 2).2 (by decide)).1,
   ((claim_C7_getTransactions_cap exState 0 2).2 (by decide)).2 exGenesis⟩

/-- C8: for any limit within the query cap, `getUserTransactions` replies
with the participant-filtered ledger range — every returned record matches
`who` as caller, from or to, and a ledger record is returned exactly when its
id lies in the queried interval and it matches that participant filter. -/
theorem claim_C8_getUserTransactions_filter (st : CanisterState) (who : Principal)
    (start limit : Nat) (hle : limit ≤ MAX_TRANSACTION_QUERY_LEN) :
    TokenCanister.getUserTransactions st who start limit = CallResult.reply
      ((Ledger.get_range st.ledger start limit).filter (TokenCanister.matchesUser who)) st ∧
    (∀ tx ∈ (Ledger.get_range st.ledger start limit).filter (TokenCanister.matchesUser who),
      TokenCanister.matchesUser who tx = true) ∧
    (∀ tx, tx ∈ (Ledger.get_range st.ledger start limit).filter
        (TokenCanister.matchesUser who) ↔
      tx ∈ st.ledger ∧ start ≤ tx.id ∧ tx.id < start + limit ∧
        TokenCanister.matchesUser who tx = true) := by
  refine ⟨?_, ?_, ?_⟩
  · simp [TokenCanister.getUserTransactions, Nat.not_lt.mpr hle]
  · intro tx hmem
    exact (List.mem_filter.mp hmem).2
  · intro tx
    simp only [List.mem_filter, Ledger.get_range, Bool.and_eq_true, decide_eq_true_eq]
    tauto

/-- Witness for C8 at concrete inputs: holder 0, range 0..2 on the example
state, with the genesis record as the probed element. -/
theorem claim_C8_getUserTransactions_filter_witness :
    TokenCanister.getUserTransactions exState 0 0 2 = CallResult.reply
      ((Ledger.get_range exState.ledger 0 2).filter (TokenCanister.matchesUser 0)) exState ∧
    (exGenesis ∈ (Ledger.get_range exState.ledger 0 2).filter (TokenCanister.matchesUser 0) ↔
      exGenesis ∈ exState.ledger ∧ 0 ≤ exGenesis.id ∧ exGenesis.id < 0 + 2 ∧
        TokenCanister.matchesUser 0 exGenesis = true) :=
  ⟨(claim_C8_getUserTransactions_filter exState 0 0 2 (by decide)).1,
   (claim_C8_getUserTransactions_filter exState 0 0 2 (by decide)).2.2 exGenesis⟩

/-- Nanoseconds in one millisecond. -/
def nsPerMillisecond : Nat := 1000000

/-- Nanoseconds in one second. -/
def nsPerSecond : Nat := 1000000000

/-- C10: a successful owner call of `setAuctionPeriod(period_sec)` stores
`period_sec * 1_000_000` as the auction period; since the stored value is
compared against nanosecond timestamps, it equals `period_sec` milliseconds
of real time and differs from `period_sec` seconds whenever the period is
positive. The overflow hypothesis keeps the `u64` product within range. -/
theorem claim_C10_setAuctionPeriod_units (st : CanisterState) (caller : Principal)
    (period_sec : Nat) (hown : caller = TokenCanister.owner st)
    (hrange : period_sec * 1000000 < u64Mod) :
    TokenCanister.setAuctionPeriod caller st period_sec = CallResult.reply
      (Except.ok ()) { st with bidding_state := { st.bidding_state with
        auction_period := period_sec * 1000000 } } ∧
    period_sec * 1000000 = period_sec * nsPerMillisecond ∧
    (0 < period_sec → period_sec * 1000000 ≠ period_sec * nsPerSecond) := by
  refine ⟨?_, rfl, ?_⟩
  · simp [TokenCanister.setAuctionPeriod, check_caller, hown, Nat.mod_eq_of_lt hrange]
  · intro hpos
    have hlt : period_sec * nsPerMillisecond < period_sec * nsPerSecond :=
      mul_lt_mul_of_pos_left (by norm_num [nsPerMillisecond, nsPerSecond]) hpos
    exact Nat.ne_of_lt hlt

/-- Witness for C10: the owner (principal 0) of the example state sets a
60-second period; the stored value is 60 milliseconds in nanoseconds. -/
theorem claim_C10_setAuctionPeriod_units_witness :
    TokenCanister.setAuctionPeriod 0 exState 60 = CallResult.reply
      (Except.ok ()) { exState with bidding_state := { exState.bidding_state with
        auction_period := 60 * 1000000 } } ∧
    (60 : Nat) * 1000000 ≠ 60 * nsPerSecond :=
  ⟨(claim_C10_setAuctionPeriod_units exState 0 60 (by decide) (by decide)).1,
   (claim_C10_setAuctionPeriod_units exState 0 60 (by decide) (by decide)).2.2 (by decide)⟩

end IS20
